import Mathlib

/-
  Verification of the `serve` WebSocket interceptor framework against its
  natural-language specification.

  The Go source is shallowly embedded: stateful methods become pure functions
  that take the state and return the updated state together with the list of
  write events they performed; machine integers become Nat/Int; fallible code
  returns Except/Option.  Mutex acquisition/release is not modelled: every
  method is given its sequential semantics.  Writer capabilities are modelled
  as recorders: a successful `writer.Write(conn, MessageText, msg)` becomes the
  event `(conn, msg)` appended to the event list (transport write failures are
  not modelled).  Time (`time.Now()`, timestamps, TTLs) is passed in as an
  explicit `now : Nat` where the source reads the clock.
-/

namespace Serve

/-! ## Room interceptor: message model
    Embedded from `src/unnamed/part_013` (package room, message definitions)
    and the room revision cited by the claims
    (`src/unnamed/part_011` first chunk, `src/unnamed/part_012` middle chunk). -/

/-- Connections are opaque capability tags compared by identity
    (`interceptor.Connection`); modelled as naturals. -/
abbrev Conn := Nat

/-- The nine room sub-types (`interceptor.SubType` constants of package room). -/
inductive RoomSubType where
  | createRoom | joinRoom | leaveRoom | chatSource | chatDest
  | clientJoined | clientLeft | success | roomError
deriving DecidableEq, Repr

/-- `ChatSource` payload: `{RoomID, MessageID, RecipientID []string, Content
    json.RawMessage, Timestamp}`.  `Content` is `Option String`: `none` models
    a nil `json.RawMessage`. -/
structure ChatSourceP where
  roomID : String
  messageID : String
  recipientID : List String
  content : Option String
  timestamp : Nat
deriving DecidableEq, Repr

/-- Typed room payloads (the `interceptor.Payload` implementations of package
    room).  Marshalling to JSON is total for these types, so the envelope
    carries the typed payload itself. -/
inductive RoomPayload where
  | createRoom (roomID : String) (closeTime : Int) (clientsToAllow : List String)
  | joinRoom (roomID : String)
  | leaveRoom (roomID : String)
  | chatSource (p : ChatSourceP)
  | chatDest (roomID messageID : String) (content : Option String) (timestamp : Nat)
  | clientJoined (clientID roomID : String) (joinedAt : Nat)
  | clientLeft (clientID roomID : String) (leftAt : Nat)
  | success (successMessage : String)
  | roomError (errorMessage : String)
deriving DecidableEq, Repr

/-- `Payload.Type()` of each room payload. -/
def RoomPayload.typeOf : RoomPayload → RoomSubType
  | .createRoom _ _ _ => .createRoom
  | .joinRoom _ => .joinRoom
  | .leaveRoom _ => .leaveRoom
  | .chatSource _ => .chatSource
  | .chatDest _ _ _ _ => .chatDest
  | .clientJoined _ _ _ => .clientJoined
  | .clientLeft _ _ _ => .clientLeft
  | .success _ => .success
  | .roomError _ => .roomError

/-- `ChatSource.Validate`: fails when `RoomID == "" || MessageID == "" ||
    Content == nil`. -/
def ChatSourceP.validate (p : ChatSourceP) : Bool :=
  !(p.roomID == "" || p.messageID == "" || p.content.isNone)

/-- A room envelope (`interceptor.BaseMessage` with `Protocol = IProtocol`,
    `MainType = "room"`, `SubType = payload.Type()`); the payload is kept
    typed (JSON marshal of these payloads is total and injective). -/
structure RoomMsg where
  senderID : String
  receiverID : String
  payload : RoomPayload
deriving DecidableEq, Repr

/-- `CreateMessage(senderID, receiverID, payload)` from
    `src/unnamed/part_013`: builds the envelope; the only failure source is
    `payload.Marshal()`, which is total for room payloads. -/
def CreateMessage (senderID receiverID : String) (payload : RoomPayload) : RoomMsg :=
  ⟨senderID, receiverID, payload⟩

/-- `JoinRoomSuccessMessage`.  The one-argument variant called by `room.add`
    in the cited revision is not under src/; its payload is reconstructed from
    the two-argument constructor in `src/unnamed/part_013`
    (`Success{"Joined room " + roomID + " successfully"}`). -/
def JoinRoomSuccessPayload (roomID : String) : RoomPayload :=
  .success ("Joined room " ++ roomID ++ " successfully")

/-! ## Room interceptor: room state and operations
    Embedded from the revision cited by the claims:
    `src/unnamed/part_012`, middle chunk (participants keyed by Connection). -/

/-- Per-connection state of the room interceptor (`room.state`): the peer id
    plus writer/reader capabilities.  The capabilities are modelled by
    recording write events, so only the id is carried. -/
structure RState where
  id : String
deriving DecidableEq, Repr

/-- `room.room`: id, owner connection (nil-able), allow-list, participants
    map keyed by Connection (association list in insertion order; Go map
    iteration order is unspecified, `find?` picks the first match), clock
    fields, and the context-cancelled flag standing for `ctx`/`cancel`. -/
structure Room where
  id : String
  owner : Option Conn
  allowed : List String
  participants : List (Conn × RState)
  created : Nat
  lastActivity : Nat
  ttl : Nat
  cancelled : Bool
deriving DecidableEq, Repr

/-- `room.isAllowed` (src/unnamed/part_012 lines 242-250): scans the
    allow-list for the id; there is no empty-allow-list (open room) case and
    no owner exemption in this revision. -/
def Room.isAllowed (r : Room) (id : String) : Bool :=
  r.allowed.any (fun allowed => id == allowed)

/-- `room.sendTo(id, msg)` (src/unnamed/part_012 lines 307-315): iterate the
    participants, write `msg` to the first participant whose state id matches,
    else error `"connection does not exists"`.  A successful write is returned
    as the event `(conn, msg)`. -/
def Room.sendTo (r : Room) (id : String) (msg : RoomMsg) :
    Except String (Conn × RoomMsg) :=
  match r.participants.find? (fun q => q.2.id == id) with
  | some q => .ok (q.1, msg)
  | none => .error "connection does not exists"

/-- `room.send(from, payload, to...)` (src/unnamed/part_012 lines 283-305):
    when `to` is empty it is replaced by the room's allow-list (`to =
    room.allowed`); for each id, `CreateMessage` (total here) then `sendTo`;
    per-id errors are collected into the multi-error and do not abort the
    loop.  Returns the write events and the collected error strings. -/
def Room.send (r : Room) (fromID : String) (payload : RoomPayload)
    (toIDs : List String) : List (Conn × RoomMsg) × List String :=
  let toIDs' := if toIDs.isEmpty then r.allowed else toIDs
  (toIDs'.filterMap (fun id =>
      match r.sendTo id (CreateMessage fromID id payload) with
      | .ok e => some e
      | .error _ => none),
   toIDs'.filterMap (fun id =>
      match r.sendTo id (CreateMessage fromID id payload) with
      | .ok _ => none
      | .error e => some e))

/-- `room.add(connection, state)` (src/unnamed/part_012 lines 252-281):
    reject when `!isAllowed(state.id)`; reject when the connection is already
    a participant; otherwise insert, fan `ClientJoined` out to every
    participant with a different id, and send `JoinRoomSuccessMessage` to the
    joiner.  In this model writes always succeed and `CreateMessage` is
    total, so the collected multi-error is empty and the result is `.ok`. -/
def Room.add (r : Room) (conn : Conn) (st : RState) (now : Nat) :
    Except String (Room × List (Conn × RoomMsg)) :=
  if !(r.isAllowed st.id) then .error "participant not allowed"
  else if r.participants.any (fun q => q.1 == conn) then
    .error "participant already exists"
  else
    let r' := { r with participants := r.participants ++ [(conn, st)] }
    let joinedEvents :=
      (r'.participants.filter (fun q => !(q.2.id == st.id))).flatMap
        (fun q => (r'.send "server" (.clientJoined st.id r.id now) [q.2.id]).1)
    let successEvents := (r'.send "server" (JoinRoomSuccessPayload r.id) [st.id]).1
    .ok ({ r' with lastActivity := now }, joinedEvents ++ successEvents)

/-! ## Room interceptor: interceptor-level state and processing
    Embedded from `src/unnamed/part_011`, first chunk. -/

/-- `room.Interceptor`: rooms map and per-connection states map, both as
    association lists. -/
structure RoomInterceptor where
  rooms : List (String × Room)
  states : List (Conn × RState)
deriving DecidableEq, Repr

/-- Effect of the Go pointer write `state.id = header.SenderID` on a room:
    every participant entry of `connection` aliases the interceptor's state
    record, so its id changes too. -/
def Room.setParticipantId (r : Room) (conn : Conn) (newId : String) : Room :=
  { r with participants := (r.participants.map
      (fun q => if q.1 == conn then (q.1, { q.2 with id := newId }) else q)) }

/-- `state.id = header.SenderID`: updates the interceptor's state entry for
    the connection and, through pointer aliasing, the matching participant
    entry of every room. -/
def RoomInterceptor.setStateId (i : RoomInterceptor) (conn : Conn)
    (newId : String) : RoomInterceptor :=
  { rooms := i.rooms.map (fun x => (x.1, x.2.setParticipantId conn newId)),
    states := i.states.map
      (fun s => if s.1 == conn then (s.1, { s.2 with id := newId }) else s) }

/-- `ChatSource.Process` (src/unnamed/part_011 lines 189-217): validate,
    look up the room, look up the connection's state, set its id from the
    header, wrap the chat as a `ChatDest` and hand it to `room.send` with the
    payload's recipient ids.  Returns the updated interceptor, the write
    events and the collected per-recipient errors. -/
def ChatSourceProcess (p : ChatSourceP) (headerSenderID : String)
    (i : RoomInterceptor) (conn : Conn) :
    Except String (RoomInterceptor × List (Conn × RoomMsg) × List String) :=
  if !p.validate then .error "not valid"
  else
    match i.rooms.find? (fun x => x.1 == p.roomID) with
    | none => .error "room does not exists"
    | some (_, r) =>
      match i.states.find? (fun s => s.1 == conn) with
      | none => .error "connection not registered yet"
      | some _ =>
        let i' := i.setStateId conn headerSenderID
        let r' := r.setParticipantId conn headerSenderID
        let chat : RoomPayload :=
          .chatDest p.roomID p.messageID p.content p.timestamp
        let sent := r'.send headerSenderID chat p.recipientID
        .ok (i', sent.1, sent.2)

/-- `Interceptor.UnBindSocketConnection` (src/unnamed/part_011 lines 64-77):
    delete the connection's state entry when present.  The loop that would
    visit rooms owned by the connection is commented out in the source, so
    the rooms map is returned untouched. -/
def RoomInterceptor.unBindSocketConnection (i : RoomInterceptor) (conn : Conn) :
    RoomInterceptor :=
  if i.states.any (fun s => s.1 == conn) then
    { i with states := i.states.filter (fun s => !(s.1 == conn)) }
  else i

/-- Events of an `.ok` result of `ChatSourceProcess` (empty on error). -/
def eventsOf (res : Except String (RoomInterceptor × List (Conn × RoomMsg) × List String)) :
    List (Conn × RoomMsg) :=
  match res with
  | .ok (_, e, _) => e
  | .error _ => []

/-- Collected per-recipient errors of an `.ok` result of `ChatSourceProcess`. -/
def errsOf (res : Except String (RoomInterceptor × List (Conn × RoomMsg) × List String)) :
    List String :=
  match res with
  | .ok (_, _, e) => e
  | .error _ => []

/-- Number of write events whose envelope carries the given sub-type. -/
def countSub (evts : List (Conn × RoomMsg)) (t : RoomSubType) : Nat :=
  (evts.filter (fun e => e.2.payload.typeOf == t)).length

/-! ## Encryption interceptor
    Embedded from `src/pkg/interceptor/encrypt/encryption.go` (first chunk:
    `AES256`), `src/pkg/interceptor/encrypt/messages.go` and the revision of
    `src/pkg/interceptor/encrypt/interceptor.go` cited by the claims (second
    chunk: `states map[interceptor.Connection]*state`, `isServer`). -/

/-- A 32-byte AES key (`encrypt.key`), abstracted to its value. -/
abbrev Key := Nat

/-- A 16-byte session id (`encrypt.SessionID`), as its list of bytes. -/
abbrev SessionID := List Nat

/-- The zero value of `SessionID` (`[16]byte{}`). -/
def zeroSessionID : SessionID := List.replicate 16 0

/-- `encrypt.IsZero` (the generic comparison against the zero value),
    specialised to `SessionID` as the code uses it in `AES256.Ready`. -/
def IsZero (s : SessionID) : Bool := s == zeroSessionID

/-- Idealised output of `cipher.AEAD.Seal` (AES-256-GCM from the Go standard
    library, an external collaborator): the ciphertext determines and
    authenticates the key, the nonce, the plaintext and the additional data. -/
structure Sealed where
  sealKey : Key
  sealNonce : List Nat
  plaintext : List Nat
  ad : List Nat
deriving DecidableEq, Repr

/-- Idealised `cipher.AEAD.Seal`. -/
def gcmSeal (k : Key) (nonce : List Nat) (pt : List Nat) (ad : List Nat) : Sealed :=
  ⟨k, nonce, pt, ad⟩

/-- Idealised `cipher.AEAD.Open`: succeeds exactly when key, nonce and
    additional data all match the ones used to seal. -/
def gcmOpen (k : Key) (nonce : List Nat) (ct : Sealed) (ad : List Nat) :
    Option (List Nat) :=
  if ct.sealKey == k && ct.sealNonce == nonce && ct.ad == ad then
    some ct.plaintext
  else none

/-- `encrypt.AES256`: the two directional AEAD handles (carrying the key they
    were built from; `nil` is `none`) and the session id. -/
structure AES256 where
  encryptor : Option Key
  decryptor : Option Key
  sessionID : SessionID
deriving DecidableEq, Repr

/-- `AES256.SetKeys(encryptKey, decryptKey)`: builds both GCM handles.  The
    key size is fixed at 32 bytes, so `aes.NewCipher`/`cipher.NewGCM` cannot
    fail and the error returns of the source are unreachable. -/
def AES256.SetKeys (a : AES256) (encryptKey decryptKey : Key) : AES256 :=
  { a with encryptor := some encryptKey, decryptor := some decryptKey }

/-- `AES256.SetSessionID`. -/
def AES256.SetSessionID (a : AES256) (id : SessionID) : AES256 :=
  { a with sessionID := id }

/-- `AES256.Ready` (encryption.go lines 165-170):
    `a.encryptor != nil && a.decryptor != nil && !IsZero(a.sessionID)`. -/
def AES256.Ready (a : AES256) : Bool :=
  a.encryptor.isSome && a.decryptor.isSome && !(IsZero a.sessionID)

/-- `encrypt.EncryptedMessage`: envelope with `protocol = "encrypt-message"`,
    sealed payload, nonce and timestamp. -/
structure EncryptedMessage where
  senderID : String
  receiverID : String
  payload : Sealed
  nonce : List Nat
  timestamp : Nat
deriving DecidableEq, Repr

/-- `AES256.Encrypt(senderID, receiverID, m)` (encryption.go lines 100-137):
    fail when not `Ready`; draw a fresh 12-byte nonce (`none` models an
    `io.ReadFull(rand.Reader, ...)` failure); marshal the message (total,
    passed in as `marshal`); seal with the encrypt key and the session id as
    additional data; wrap as an `EncryptedMessage`. -/
def AES256.Encrypt {M : Type} (a : AES256) (marshal : M → List Nat)
    (senderID receiverID : String) (m : M) (nonceDraw : Option (List Nat))
    (now : Nat) : Except String EncryptedMessage :=
  if !a.Ready then .error "encryption not ready"
  else
    match nonceDraw with
    | none => .error "failed to generate nonce"
    | some nonce =>
      match a.encryptor with
      | none => .error "encryption not ready"
      | some k =>
        .ok ⟨senderID, receiverID, gcmSeal k nonce (marshal m) a.sessionID,
             nonce, now⟩

/-- `AES256.Decrypt(m)` (encryption.go lines 140-162): fail when not `Ready`;
    reject a nil/empty nonce; open the payload with the decrypt key and the
    session id as additional data; on success the plaintext replaces the
    payload (returned here). -/
def AES256.Decrypt (a : AES256) (m : EncryptedMessage) :
    Except String (List Nat) :=
  if !a.Ready then .error "encryption not ready"
  else if m.nonce.isEmpty then .error "invalid nonce"
  else
    match a.decryptor with
    | none => .error "encryption not ready"
    | some k =>
      match gcmOpen k m.nonce m.payload a.sessionID with
      | none => .error "decryption failed"
      | some data => .ok data

/-- Per-connection encryption state (`encrypt.state`): peer id, our X25519
    private key, the handshake salt and the encryptor.  The `initDone`
    channel, writer, reader and contexts are modelled separately. -/
structure EncState where
  peerID : String
  privKey : Nat
  salt : List Nat
  encryptor : AES256
deriving DecidableEq, Repr

/-- The encryption interceptor (cited revision of interceptor.go): states map,
    interceptor id (`i.ID`, the HKDF info string) and the server flag. -/
structure EncInterceptor where
  states : List (Conn × EncState)
  interceptorID : String
  isServer : Bool
deriving DecidableEq, Repr

/-- The `Init` handshake payload: `{pubKey, signature, sessionID, salt}` plus
    the envelope's header sender id. -/
structure InitPayload where
  senderID : String
  pubKey : List Nat
  signature : List Nat
  sessionID : SessionID
  salt : List Nat
deriving DecidableEq, Repr

/-- An `InitResponse` write: `NewInitResponseMessage(i.ID, state.peerID,
    pubKey)`. -/
structure InitResponseMsg where
  senderID : String
  receiverID : String
  pubKey : List Nat
deriving DecidableEq, Repr

/-- Result of processing a handshake message: the states map after the call,
    the `InitResponse` envelopes written, and the returned error if any. -/
structure EncProcResult where
  states : List (Conn × EncState)
  writes : List InitResponseMsg
  err : Option String
deriving DecidableEq, Repr

/-- Replace the state bound to `conn` (the Go code mutates the record behind
    the map entry's pointer). -/
def updateEncStates (states : List (Conn × EncState)) (conn : Conn)
    (st : EncState) : List (Conn × EncState) :=
  states.map (fun s => if s.1 == conn then (conn, st) else s)

/-- `Init.Process` (messages.go lines 123-174).  External crypto primitives
    are passed in: `verify` is `ed25519.Verify(pub, message, sig)`,
    `scalarBaseMult` is `curve25519.ScalarBaseMult`, `x25519` is
    `curve25519.X25519(priv, peerPub)` and `hkdf` is `derive(shared, salt,
    info)`; `newPriv` is the freshly drawn private key.  Order as in the
    source: verify the signature over `pubKey ‖ salt` first, then look the
    connection up, generate the key pair, store peer id and salt, derive
    `(encKey, decKey)`, set keys and session id, and write `InitResponse`. -/
def InitProcessModel (verify : List Nat → List Nat → List Nat → Bool)
    (serverPublicKey : List Nat) (scalarBaseMult : Nat → List Nat)
    (x25519 : Nat → List Nat → List Nat)
    (hkdf : List Nat → List Nat → String → Key × Key)
    (i : EncInterceptor) (conn : Conn) (p : InitPayload) (newPriv : Nat) :
    EncProcResult :=
  if !(verify serverPublicKey (p.pubKey ++ p.salt) p.signature) then
    ⟨i.states, [], some "signature verification failed"⟩
  else
    match (i.states.find? (fun s => s.1 == conn)) with
    | none => ⟨i.states, [], some "connection not registered"⟩
    | some (_, st) =>
      let pubKey := scalarBaseMult newPriv
      let st1 := { st with privKey := newPriv, peerID := p.senderID, salt := p.salt }
      let shared := x25519 newPriv p.pubKey
      let keys := hkdf shared st1.salt i.interceptorID
      let encKey := keys.1
      let decKey := keys.2
      let st2 := { st1 with
        encryptor := ((st1.encryptor.SetKeys encKey decKey).SetSessionID p.sessionID) }
      ⟨updateEncStates i.states conn st2,
       [⟨i.interceptorID, st2.peerID, pubKey⟩], none⟩

/-- The responder's encryptor after `Init.Process`: `encKey, decKey, err :=
    derive(shared, state.salt, i.ID)` gives `(encKey, decKey) = (k1, k2)`,
    then `SetKeys(encKey, decKey)` and `SetSessionID(payload.SessionID)`. -/
def responderEncryptorAfterInit (prior : AES256) (k1 k2 : Key)
    (sid : SessionID) : AES256 :=
  (prior.SetKeys k1 k2).SetSessionID sid

/-- The initiator's encryptor after `InitResponse.Process`: `decKey, encKey,
    err := derive(shared, state.salt, i.ID)` (reversed) gives `(encKey,
    decKey) = (k2, k1)`, then `SetKeys(encKey, decKey)`; the session id was
    already set by `initialiseKeyExchange`. -/
def initiatorEncryptorAfterResponse (prior : AES256) (k1 k2 : Key) : AES256 :=
  prior.SetKeys k2 k1

/-- What the wrapped writer hands to the inner writer: either the original
    message or its encrypted wrapper. -/
inductive WriterArg (M : Type) where
  | plain (m : M)
  | enc (e : EncryptedMessage)
deriving DecidableEq, Repr

/-- Whether a write argument is an encrypted wrapper. -/
def WriterArg.isEncrypted {M : Type} : WriterArg M → Bool
  | .plain _ => false
  | .enc _ => true

/-- The wrapped writer installed by `Interceptor.InterceptSocketWriter`
    (cited revision of interceptor.go, lines 248-270): unknown connection
    passes through; when the encryptor is `Ready`, encrypt and forward the
    wrapper, but on an `Encrypt` error forward the original message instead;
    when not `Ready`, pass the message through unencrypted. -/
def interceptSocketWriterWrite {M : Type} (marshal : M → List Nat)
    (senderOf receiverOf : M → String) (states : List (Conn × EncState))
    (conn : Conn) (m : M) (nonceDraw : Option (List Nat)) (now : Nat) :
    WriterArg M :=
  match states.find? (fun s => s.1 == conn) with
  | none => .plain m
  | some (_, st) =>
    if st.encryptor.Ready then
      match st.encryptor.Encrypt marshal (senderOf m) (receiverOf m) m
          nonceDraw now with
      | .ok e => .enc e
      | .error _ => .plain m
    else .plain m

/-! ## The initDone channel (claim C5)
    `state.initDone` is a `chan struct{}`.  A send is modelled against a
    channel with a given capacity and queue length, with no concurrent
    receiver; a nil channel (the cited `BindSocketConnection` never makes
    the channel) can never be sent on. -/

/-- A Go channel of `struct{}` values: nil flag, buffer capacity and number
    of queued values. -/
structure Chan where
  isNil : Bool
  capacity : Nat
  queued : Nat
deriving DecidableEq, Repr

/-- Whether a send can complete immediately with no concurrent receiver. -/
def Chan.canSend (ch : Chan) : Bool :=
  !ch.isNil && ch.queued < ch.capacity

/-- The two kinds of send the handshake processors perform on `initDone`:
    a `select` with a `default` branch, and a bare send. -/
inductive SendKind where
  | nonBlockingSelect
  | blocking
deriving DecidableEq, Repr

/-- One send against the channel with no concurrent receiver: a select-send
    falls through to `default` when it cannot complete; a bare send blocks
    forever (`none`). -/
def sendStep (ch : Chan) (k : SendKind) : Option Chan :=
  if ch.canSend then some { ch with queued := ch.queued + 1 }
  else
    match k with
    | .nonBlockingSelect => some ch
    | .blocking => none

/-- Run a sequence of sends; `none` as soon as one blocks. -/
def runSends (ch : Chan) : List SendKind → Option Chan
  | [] => some ch
  | k :: rest =>
    match sendStep ch k with
    | none => none
    | some ch' => runSends ch' rest

/-- The sends `InitDone.Process` performs on `state.initDone` (messages.go
    lines 288-294): the select-send with a `default` branch, then the
    unconditional send `state.initDone <- struct{}{}`. -/
def initDoneSendsInInitDoneProcess : List SendKind :=
  [.nonBlockingSelect, .blocking]

/-- The send `InitResponse.Process` performs on `state.initDone`
    (messages.go lines 238-242): only the select-send with a `default`
    branch. -/
def initDoneSendsInInitResponseProcess : List SendKind :=
  [.nonBlockingSelect]

/-! ## Chain (claim C8)
    Embedded from the `interceptor.Chain` revision cited by the claims
    (`src/pkg/interceptor/ping/state.go`, second chunk, lines 229-365). -/

/-- One interceptor, as the Chain sees it: its writer and reader wrappers
    (`InterceptSocketWriter` / `InterceptSocketReader`). -/
structure ChainItem (W R : Type) where
  interceptWriter : W → W
  interceptReader : R → R

/-- `Chain.InterceptSocketWriter` (lines 290-296): repeatedly rebind
    `writer = interceptor.InterceptSocketWriter(writer)` over the list. -/
def chainInterceptSocketWriter {W R : Type} (c : List (ChainItem W R))
    (writer : W) : W :=
  c.foldl (fun w i => i.interceptWriter w) writer

/-- `Chain.InterceptSocketReader` (lines 308-314): same fold on readers. -/
def chainInterceptSocketReader {W R : Type} (c : List (ChainItem W R))
    (reader : R) : R :=
  c.foldl (fun r i => i.interceptReader r) reader

/-- `Chain.BindSocketConnection` (lines 271-278): each interceptor's
    `BindSocketConnection` is called with
    `chain.InterceptSocketWriter(writer)` and
    `chain.InterceptSocketReader(reader)`; the list records the `(writer,
    reader)` pair passed at each position. -/
def chainBindCalls {W R : Type} (c : List (ChainItem W R)) (writer : W)
    (reader : R) : List (W × R) :=
  c.map (fun _ =>
    (chainInterceptSocketWriter c writer, chainInterceptSocketReader c reader))

/-! ## Ping interceptor state (claim C10)
    Embedded from `src/pkg/interceptor/ping/state.go`, first chunk, and the
    fresh state built by `BindSocketConnection` in
    `src/pkg/interceptor/ping/interceptor.go`. -/

/-- A `pong` record: matching message id, computed round-trip time, receipt
    time. -/
structure PongRec where
  messageid : String
  rtt : Int
  timestamp : Nat
deriving DecidableEq, Repr

/-- A `ping` record: message id and send time. -/
structure PingRec where
  messageid : String
  timestamp : Int
deriving DecidableEq, Repr

/-- The `Pong` payload fields `recordPong` reads. -/
structure PongPayload where
  messageID : String
  timestamp : Int
  pingTimestamp : Int
deriving DecidableEq, Repr

/-- `ping.state`: histories, cap, counters, and the `recent` pair.  `none`
    models the nil pointers of the zero-valued `recent` struct. -/
structure PingState where
  peerid : String
  pongs : List PongRec
  pings : List PingRec
  maxHist : Nat
  recvd : Nat
  sent : Nat
  recentPing : Option PingRec
  recentPong : Option PongRec
deriving DecidableEq, Repr

/-- The state built by `BindSocketConnection`: empty histories; `recent` is
    left at its zero value, so both recent pointers are nil. -/
def freshPingState (maxHistory : Nat) : PingState :=
  { peerid := "unknown", pongs := [], pings := [], maxHist := maxHistory,
    recvd := 0, sent := 0, recentPing := none, recentPong := none }

/-- `state.recordPong` (state.go lines 64-84): compute the RTT from the pong,
    store it as the recent pong, drop the oldest record when the history is
    full, append, and count. -/
def PingState.recordPong (s : PingState) (payload : PongPayload) (now : Nat) :
    PingState :=
  let rtt := payload.timestamp - payload.pingTimestamp
  let pong : PongRec := ⟨payload.messageID, rtt, now⟩
  let pongs' :=
    if s.pongs.length ≥ s.maxHist then
      (if s.pongs.length > 0 then s.pongs.tail else s.pongs)
    else s.pongs
  { s with
    recentPong := some pong
    pongs := pongs' ++ [pong]
    recvd := s.recvd + 1 }

/-- `state.GetRecentRTT` (state.go lines 119-124): returns
    `state.recent.pong.rtt` with no nil check; `none` models the nil-pointer
    dereference that happens when no pong was ever recorded. -/
def PingState.getRecentRTT (s : PingState) : Option Int :=
  s.recentPong.map (fun p => p.rtt)

/-- `state.GetAverageRTT` (state.go lines 132-146): zero when no pongs,
    otherwise the mean over the history. -/
def PingState.getAverageRTT (s : PingState) : Int :=
  if s.pongs.length = 0 then 0
  else (s.pongs.map (fun p => p.rtt)).sum / (s.pongs.length : Int)

/-- `state.GetMaxRTT` (state.go lines 154-170): zero when no pongs, else the
    running maximum starting from zero. -/
def PingState.getMaxRTT (s : PingState) : Int :=
  if s.pongs.length = 0 then 0
  else s.pongs.foldl (fun m p => if p.rtt > m then p.rtt else m) 0

/-- `state.GetMinRTT` (state.go lines 178-194): zero when no pongs, else the
    running minimum starting from the first record. -/
def PingState.getMinRTT (s : PingState) : Int :=
  match s.pongs with
  | [] => 0
  | p0 :: _ => s.pongs.foldl (fun m p => if p.rtt < m then p.rtt else m) p0.rtt

/-! ## Concrete scenarios used by counterexamples and witnesses -/

/-- A room after two successful joins of distinct ids `"a"` and `"b"`, with
    allow-list `["a", "b"]`. -/
def c1Room : Room :=
  { id := "R", owner := some 1, allowed := ["a", "b"],
    participants := [(1, ⟨"a"⟩), (2, ⟨"b"⟩)],
    created := 0, lastActivity := 0, ttl := 100, cancelled := false }

/-- Room interceptor holding `c1Room` and the two member connections. -/
def c1Interceptor : RoomInterceptor :=
  { rooms := [("R", c1Room)], states := [(1, ⟨"a"⟩), (2, ⟨"b"⟩)] }

/-- A broadcast chat (`recipientIds` empty) sent into `c1Room`. -/
def c1Payload : ChatSourceP :=
  { roomID := "R", messageID := "m1", recipientID := [], content := some "hi",
    timestamp := 7 }

/-- An existing room whose allow-list is empty. -/
def c2EmptyAllowRoom : Room :=
  { id := "S", owner := some 1, allowed := [], participants := [],
    created := 0, lastActivity := 0, ttl := 100, cancelled := false }

/-- An existing room that allows id `"x"` and has no participants yet. -/
def c2WitnessRoom : Room :=
  { id := "S", owner := some 1, allowed := ["x"], participants := [],
    created := 0, lastActivity := 0, ttl := 100, cancelled := false }

/-- A live room owned by connection 1. -/
def c6Room : Room :=
  { id := "R", owner := some 1, allowed := ["a"], participants := [(1, ⟨"a"⟩)],
    created := 0, lastActivity := 0, ttl := 60, cancelled := false }

/-- Interceptor holding `c6Room` plus state entries for connections 1 and 2. -/
def c6Interceptor : RoomInterceptor :=
  { rooms := [("R", c6Room)], states := [(1, ⟨"a"⟩), (2, ⟨"b"⟩)] }

/-- An encryption connection state whose encryptor is fully keyed with a
    non-zero session id, hence `Ready`. -/
def c7ReadyState : EncState :=
  { peerID := "peer", privKey := 0, salt := [],
    encryptor := { encryptor := some 1, decryptor := some 2,
                   sessionID := 1 :: List.replicate 15 0 } }

/-- An encryption states map binding connection 1 to `c7ReadyState`. -/
def c7States : List (Conn × EncState) := [(1, c7ReadyState)]

/-- A non-zero 16-byte session id. -/
def c4Sid : SessionID := 1 :: List.replicate 15 0

end Serve

namespace Serve

/-! # Theorems -/

/-! ### Claim C2: join allow-list semantics -/

/-- Counterexample to claim C2: the claim says an empty allow-list means the
    room is open to everyone, but `room.add` on a room whose allow-list is
    empty rejects a fresh join (`isAllowed` scans the list and finds
    nothing); there is no open-room case in the cited revision. -/
theorem C2_join_counterexample :
    Room.add c2EmptyAllowRoom 2 ⟨"x"⟩ 5 = .error "participant not allowed"
    ∧ c2EmptyAllowRoom.allowed = []
    ∧ c2EmptyAllowRoom.participants = [] := by
  refine ⟨rfl, rfl, rfl⟩

/-- Claim C2 (amended): for every existing room R, a join succeeds if and
    only if the sender-id is in R's allow-list and the connection is not
    already a participant; an empty allow-list rejects every join (there is
    no open-room rule); a successful join appends the participant exactly
    once. -/
theorem C2_join_amended (r : Room) (conn : Conn) (st : RState) (now : Nat) :
    ((Room.add r conn st now).isOk = true ↔
      (st.id ∈ r.allowed ∧ ∀ q ∈ r.participants, q.1 ≠ conn))
    ∧ (r.isAllowed st.id = true ↔ st.id ∈ r.allowed)
    ∧ (∀ r' evts, Room.add r conn st now = .ok (r', evts) →
        r'.participants = r.participants ++ [(conn, st)]
        ∧ (r'.participants.filter (fun q => q.1 == conn)).length = 1) := by
  have hallow : r.isAllowed st.id = true ↔ st.id ∈ r.allowed := by
    simp only [Room.isAllowed, List.any_eq_true, beq_iff_eq]
    constructor
    · rintro ⟨a, ha, rfl⟩; exact ha
    · intro h; exact ⟨st.id, h, rfl⟩
  have hdup : ((r.participants.any fun q => q.1 == conn) = false) ↔
      (∀ q ∈ r.participants, q.1 ≠ conn) := by
    rw [List.any_eq_false]
    constructor
    · intro h q hq he
      exact h q hq (by simp [he])
    · intro h q hq
      simp [h q hq]
  refine ⟨?_, hallow, ?_⟩
  · unfold Room.add
    by_cases h1 : r.isAllowed st.id = true
    · by_cases h2 : (r.participants.any fun q => q.1 == conn) = true
      · rw [if_neg (by simp [h1]), if_pos h2]
        simp only [Except.isOk, Except.toBool, Bool.false_eq_true, false_iff]
        rintro ⟨_, hq⟩
        obtain ⟨q, hqm, hqe⟩ := List.any_eq_true.mp h2
        exact hq q hqm (beq_iff_eq.mp hqe)
      · have h2' : (r.participants.any fun q => q.1 == conn) = false :=
          Bool.eq_false_iff.mpr h2
        rw [if_neg (by simp [h1]), if_neg (by simp [h2'])]
        constructor
        · intro _; exact ⟨hallow.mp h1, hdup.mp h2'⟩
        · intro _; trivial
    · have h1' : r.isAllowed st.id = false := Bool.eq_false_iff.mpr h1
      rw [if_pos (by simp [h1'])]
      simp only [Except.isOk, Except.toBool, Bool.false_eq_true, false_iff]
      rintro ⟨hmem, _⟩
      exact absurd (hallow.mpr hmem) (by simp [h1'])
  · intro r' evts hok
    unfold Room.add at hok
    by_cases h1 : r.isAllowed st.id = true
    · by_cases h2 : (r.participants.any fun q => q.1 == conn) = true
      · rw [if_neg (by simp [h1]), if_pos h2] at hok
        cases hok
      · have h2' : (r.participants.any fun q => q.1 == conn) = false :=
          Bool.eq_false_iff.mpr h2
        rw [if_neg (by simp [h1]), if_neg (by simp [h2'])] at hok
        simp only [Except.ok.injEq, Prod.mk.injEq] at hok
        obtain ⟨hr', -⟩ := hok
        subst hr'
        refine ⟨rfl, ?_⟩
        have hnil : r.participants.filter (fun q => q.1 == conn) = [] := by
          rw [List.filter_eq_nil_iff]
          intro q hq
          simp [(hdup.mp h2') q hq]
        simp [List.filter_append, hnil]
    · have h1' : r.isAllowed st.id = false := Bool.eq_false_iff.mpr h1
      rw [if_pos (by simp [h1'])] at hok
      cases hok

/-- Witness for `C2_join_amended`: joining `c2WitnessRoom` with allowed id
    `"x"` on a fresh connection succeeds. -/
theorem C2_join_amended_witness :
    (Room.add c2WitnessRoom 2 ⟨"x"⟩ 0).isOk = true :=
  (C2_join_amended c2WitnessRoom 2 ⟨"x"⟩ 0).1.mpr
    ⟨by decide, by intro q hq; cases hq⟩

/-! ### Claim C6: UnBindSocketConnection frame effect -/

/-- Counterexample to claim C6: the claim says a room owned by the unbound
    connection has its owner cleared; in the cited code the room walk is
    commented out, so after unbinding connection 1 the room `"R"` still has
    `owner = some 1`. -/
theorem C6_unbind_counterexample :
    (c6Interceptor.unBindSocketConnection 1).rooms = [("R", c6Room)]
    ∧ c6Room.owner = some 1
    ∧ c6Room.cancelled = false
    ∧ ((c6Interceptor.unBindSocketConnection 1).states.find?
        (fun s => s.1 == (1 : Conn))) = none := by
  refine ⟨by decide, rfl, rfl, by decide⟩

/-- Helper: removing all entries with key `conn` does not change lookups of
    other keys. -/
lemma find_key_filter_ne (states : List (Conn × RState)) (conn c' : Conn)
    (h : c' ≠ conn) :
    ((states.filter (fun s => !(s.1 == conn))).find? (fun s => s.1 == c'))
      = states.find? (fun s => s.1 == c') := by
  induction states with
  | nil => rfl
  | cons hd tl ih =>
    rw [List.filter_cons]
    by_cases h1 : hd.1 = conn
    · rw [if_neg (by simp [h1])]
      rw [ih]
      have hc : ¬(hd.1 == c') = true := by
        simp only [beq_iff_eq, h1]
        exact fun hcc => h hcc.symm
      rw [@List.find?_cons_of_neg _ (fun s => s.1 == c') hd tl hc]
    · rw [if_pos (by simp [h1])]
      by_cases h2 : (hd.1 == c') = true
      · rw [@List.find?_cons_of_pos _ (fun s => s.1 == c') hd
            (List.filter (fun s => !(s.1 == conn)) tl) h2,
          @List.find?_cons_of_pos _ (fun s => s.1 == c') hd tl h2]
      · rw [@List.find?_cons_of_neg _ (fun s => s.1 == c') hd
            (List.filter (fun s => !(s.1 == conn)) tl) h2,
          @List.find?_cons_of_neg _ (fun s => s.1 == c') hd tl h2, ih]

/-- Claim C6 (amended): `UnBindSocketConnection` removes the connection's
    state entry and leaves the rooms map entirely unchanged — owners are not
    cleared, no room is cancelled or removed, participants are untouched;
    state entries of other connections are unaffected. -/
theorem C6_unbind_amended (i : RoomInterceptor) (conn : Conn) :
    (i.unBindSocketConnection conn).rooms = i.rooms
    ∧ (i.unBindSocketConnection conn).states.find? (fun s => s.1 == conn) = none
    ∧ (∀ c', c' ≠ conn →
        (i.unBindSocketConnection conn).states.find? (fun s => s.1 == c')
          = i.states.find? (fun s => s.1 == c')) := by
  unfold RoomInterceptor.unBindSocketConnection
  by_cases hex : (i.states.any fun s => s.1 == conn) = true
  · rw [if_pos hex]
    refine ⟨rfl, ?_, ?_⟩
    · rw [List.find?_eq_none]
      intro x hx
      have hpx := List.of_mem_filter hx
      simp only [Bool.not_eq_true'] at hpx
      simp [hpx]
    · intro c' hc'
      exact find_key_filter_ne i.states conn c' hc'
  · have hex' : (i.states.any fun s => s.1 == conn) = false :=
      Bool.eq_false_iff.mpr hex
    rw [if_neg (by simp [hex'])]
    refine ⟨rfl, ?_, fun _ _ => rfl⟩
    rw [List.find?_eq_none]
    intro x hx
    exact (List.any_eq_false.mp hex') x hx

/-- Witness for `C6_unbind_amended` at the concrete interceptor. -/
theorem C6_unbind_amended_witness :
    (c6Interceptor.unBindSocketConnection 1).rooms = c6Interceptor.rooms
    ∧ (c6Interceptor.unBindSocketConnection 1).states.find?
        (fun s => s.1 == (1 : Conn)) = none
    ∧ (c6Interceptor.unBindSocketConnection 1).states.find?
        (fun s => s.1 == (2 : Conn))
      = c6Interceptor.states.find? (fun s => s.1 == (2 : Conn)) :=
  ⟨(C6_unbind_amended c6Interceptor 1).1,
   (C6_unbind_amended c6Interceptor 1).2.1,
   (C6_unbind_amended c6Interceptor 1).2.2 2 (by decide)⟩

/-! ### Claim C10: GetRecentRTT precondition -/

/-- Claim C10: `GetRecentRTT` dereferences the most recent pong record with
    no nil check — on a freshly bound state (no pong recorded) the
    dereference is reached with no record present (`none`), while
    `GetAverageRTT`, `GetMaxRTT` and `GetMinRTT` all return zero there; after
    at least one `recordPong` the record exists and `GetRecentRTT` returns
    its RTT. -/
theorem C10_recent_rtt_deref (mh : Nat) (s : PingState) (p : PongPayload)
    (now : Nat) :
    (freshPingState mh).getRecentRTT = none
    ∧ (freshPingState mh).getAverageRTT = 0
    ∧ (freshPingState mh).getMaxRTT = 0
    ∧ (freshPingState mh).getMinRTT = 0
    ∧ (s.recordPong p now).getRecentRTT = some (p.timestamp - p.pingTimestamp) := by
  refine ⟨rfl, rfl, rfl, rfl, rfl⟩

/-! ### Claim C8: Chain composition -/

/-- Claim C8: `Chain.InterceptSocketWriter` is the left fold of the
    interceptor list over the base writer — on `[A, B]` it yields `B(A(b))`,
    and appending an interceptor wraps it outermost; reader composition is
    symmetric; `Chain.BindSocketConnection` passes every interceptor the
    fully Chain-composed writer and reader, not the bare base ones. -/
theorem C8_chain_composition {W R : Type} (A B : ChainItem W R) (b : W)
    (rb : R) (c : List (ChainItem W R)) (i : ChainItem W R) (w : W) (r : R) :
    chainInterceptSocketWriter [A, B] b = B.interceptWriter (A.interceptWriter b)
    ∧ chainInterceptSocketReader [A, B] rb
        = B.interceptReader (A.interceptReader rb)
    ∧ chainInterceptSocketWriter (c ++ [i]) w
        = i.interceptWriter (chainInterceptSocketWriter c w)
    ∧ chainInterceptSocketReader (c ++ [i]) r
        = i.interceptReader (chainInterceptSocketReader c r)
    ∧ chainBindCalls c w r = List.replicate c.length
        (chainInterceptSocketWriter c w, chainInterceptSocketReader c r) := by
  refine ⟨rfl, rfl, ?_, ?_, ?_⟩
  · simp [chainInterceptSocketWriter, List.foldl_append]
  · simp [chainInterceptSocketReader, List.foldl_append]
  · simp [chainBindCalls, List.map_const']

/-! ### Claim C5: initDone sends -/

/-- Claim C5 (code bug): the claim — and the comment in the source itself —
    says every send on `initDone` during handshake processing is
    non-blocking, but `InitDone.Process` performs an unconditional bare send
    right after its non-blocking select-send; with no concurrent receiver
    and a channel of capacity at most one (the single-shot channel; in the
    cited revision the channel is even nil), the processing step blocks
    forever, while `InitResponse.Process`'s lone select-send never blocks. -/
theorem C5_init_done_blocking_send (ch : Chan) (hcap : ch.capacity ≤ 1) :
    runSends ch initDoneSendsInInitDoneProcess = none
    ∧ (runSends ch initDoneSendsInInitResponseProcess).isSome = true := by
  constructor
  · by_cases h : ch.canSend = true
    · have hparts := h
      simp only [Chan.canSend, Bool.and_eq_true, Bool.not_eq_true',
        decide_eq_true_eq] at hparts
      have h2 : ({ ch with queued := ch.queued + 1 } : Chan).canSend = false := by
        simp only [Chan.canSend, hparts.1, Bool.not_false, Bool.true_and,
          decide_eq_false_iff_not]
        omega
      simp [initDoneSendsInInitDoneProcess, runSends, sendStep, h, h2]
    · have h' : ch.canSend = false := Bool.eq_false_iff.mpr h
      simp [initDoneSendsInInitDoneProcess, runSends, sendStep, h']
  · by_cases h : ch.canSend = true
    · simp [initDoneSendsInInitResponseProcess, runSends, sendStep, h]
    · have h' : ch.canSend = false := Bool.eq_false_iff.mpr h
      simp [initDoneSendsInInitResponseProcess, runSends, sendStep, h']

/-- Witness for `C5_init_done_blocking_send` on a capacity-one channel with
    an empty buffer. -/
theorem C5_init_done_blocking_send_witness :
    runSends ⟨false, 1, 0⟩ initDoneSendsInInitDoneProcess = none
    ∧ (runSends ⟨false, 1, 0⟩ initDoneSendsInInitResponseProcess).isSome = true :=
  C5_init_done_blocking_send ⟨false, 1, 0⟩ (by decide)

/-! ### Claim C3: Init signature verification -/

/-- Claim C3: an inbound `Init` whose signature does not verify over
    `pubKey ‖ salt` under the server public key is rejected with the
    signature-verification error before any state is touched: the states map
    is returned unchanged (no private key generated, peer id and salt not
    stored, no keys or session id set on the encryptor) and no `InitResponse`
    is written. -/
theorem C3_init_bad_signature
    (verify : List Nat → List Nat → List Nat → Bool)
    (serverPublicKey : List Nat) (scalarBaseMult : Nat → List Nat)
    (x25519 : Nat → List Nat → List Nat)
    (hkdf : List Nat → List Nat → String → Key × Key)
    (i : EncInterceptor) (conn : Conn) (p : InitPayload) (newPriv : Nat)
    (h : verify serverPublicKey (p.pubKey ++ p.salt) p.signature = false) :
    InitProcessModel verify serverPublicKey scalarBaseMult x25519 hkdf i conn
        p newPriv
      = ⟨i.states, [], some "signature verification failed"⟩ := by
  unfold InitProcessModel
  rw [h]
  rfl

/-- Witness for `C3_init_bad_signature` with an always-failing verifier. -/
theorem C3_init_bad_signature_witness :
    InitProcessModel (fun _ _ _ => false) [] (fun _ => []) (fun _ _ => [])
      (fun _ _ _ => (0, 0)) ⟨[], "enc", true⟩ 1
      ⟨"c", [], [], zeroSessionID, []⟩ 0
      = ⟨[], [], some "signature verification failed"⟩ :=
  C3_init_bad_signature (fun _ _ _ => false) [] (fun _ => []) (fun _ _ => [])
    (fun _ _ _ => (0, 0)) ⟨[], "enc", true⟩ 1
    ⟨"c", [], [], zeroSessionID, []⟩ 0 rfl

/-! ### Claim C7: encrypt exactly when Ready -/

/-- Claim C7: for a bound connection the wrapped writer encrypts the outbound
    envelope exactly when the connection's encryptor is `Ready`, where
    `Ready` holds exactly when both AEAD handles are set and the session id
    is non-zero; when `Ready` is false the envelope is forwarded to the inner
    writer unchanged and unencrypted. -/
theorem C7_encrypt_iff_ready {M : Type} (marshal : M → List Nat)
    (senderOf receiverOf : M → String) (states : List (Conn × EncState))
    (conn : Conn) (st : EncState) (m : M) (nonce : List Nat) (now : Nat)
    (hfound : states.find? (fun s => s.1 == conn) = some (conn, st)) :
    ((interceptSocketWriterWrite marshal senderOf receiverOf states conn m
        (some nonce) now).isEncrypted = st.encryptor.Ready)
    ∧ (st.encryptor.Ready = false →
        interceptSocketWriterWrite marshal senderOf receiverOf states conn m
          (some nonce) now = .plain m)
    ∧ (st.encryptor.Ready = true ↔
        (st.encryptor.encryptor.isSome = true
          ∧ st.encryptor.decryptor.isSome = true
          ∧ IsZero st.encryptor.sessionID = false)) := by
  have hready_iff : st.encryptor.Ready = true ↔
      (st.encryptor.encryptor.isSome = true
        ∧ st.encryptor.decryptor.isSome = true
        ∧ IsZero st.encryptor.sessionID = false) := by
    simp [AES256.Ready, Bool.and_eq_true, Bool.not_eq_true', and_assoc]
  refine ⟨?_, ?_, hready_iff⟩
  · simp only [interceptSocketWriterWrite, hfound]
    by_cases hready : st.encryptor.Ready = true
    · rw [if_pos hready]
      obtain ⟨henc, -, -⟩ := hready_iff.mp hready
      obtain ⟨k, hk⟩ := Option.isSome_iff_exists.mp henc
      simp [AES256.Encrypt, hready, hk, WriterArg.isEncrypted]
    · have hready' := Bool.eq_false_iff.mpr hready
      rw [if_neg (by simp [hready'])]
      simp [WriterArg.isEncrypted, hready']
  · intro hnr
    simp only [interceptSocketWriterWrite, hfound]
    rw [if_neg (by simp [hnr])]

/-- Witness for `C7_encrypt_iff_ready` on a keyed, non-zero-session state. -/
theorem C7_encrypt_iff_ready_witness :
    ((interceptSocketWriterWrite (fun n => [n]) (fun _ => "s") (fun _ => "r")
        c7States 1 (5 : Nat) (some [9]) 0).isEncrypted
      = c7ReadyState.encryptor.Ready)
    ∧ (c7ReadyState.encryptor.Ready = false →
        interceptSocketWriterWrite (fun n => [n]) (fun _ => "s") (fun _ => "r")
          c7States 1 (5 : Nat) (some [9]) 0 = .plain 5)
    ∧ (c7ReadyState.encryptor.Ready = true ↔
        (c7ReadyState.encryptor.encryptor.isSome = true
          ∧ c7ReadyState.encryptor.decryptor.isSome = true
          ∧ IsZero c7ReadyState.encryptor.sessionID = false)) :=
  C7_encrypt_iff_ready (fun n => [n]) (fun _ => "s") (fun _ => "r") c7States 1
    c7ReadyState 5 [9] 0 rfl

/-! ### Claim C9: encryption failure downgrades to plaintext -/

/-- Claim C9: for a bound connection whose encryptor is `Ready`, when the
    `Encrypt` call inside the wrapped writer fails (here: nonce generation
    fails), the writer does not fail the write — it forwards the original
    plaintext envelope to the inner writer, silently downgrading the message
    to an unencrypted send. -/
theorem C9_encrypt_error_downgrade {M : Type} (marshal : M → List Nat)
    (senderOf receiverOf : M → String) (states : List (Conn × EncState))
    (conn : Conn) (st : EncState) (m : M) (now : Nat)
    (hfound : states.find? (fun s => s.1 == conn) = some (conn, st))
    (hready : st.encryptor.Ready = true) :
    st.encryptor.Encrypt marshal (senderOf m) (receiverOf m) m none now
      = .error "failed to generate nonce"
    ∧ interceptSocketWriterWrite marshal senderOf receiverOf states conn m
        none now = .plain m := by
  have henc : st.encryptor.Encrypt marshal (senderOf m) (receiverOf m) m none now
      = .error "failed to generate nonce" := by
    unfold AES256.Encrypt
    rw [hready]
    rfl
  refine ⟨henc, ?_⟩
  simp only [interceptSocketWriterWrite, hfound]
  rw [if_pos hready, henc]

/-- Witness for `C9_encrypt_error_downgrade` on a Ready state with a failed
    nonce draw. -/
theorem C9_encrypt_error_downgrade_witness :
    c7ReadyState.encryptor.Encrypt (fun n => [n]) "s" "r" (5 : Nat) none 0
      = .error "failed to generate nonce"
    ∧ interceptSocketWriterWrite (fun n => [n]) (fun _ => "s") (fun _ => "r")
        c7States 1 (5 : Nat) none 0 = .plain 5 :=
  C9_encrypt_error_downgrade (fun n => [n]) (fun _ => "s") (fun _ => "r")
    c7States 1 c7ReadyState 5 0 rfl rfl

/-! ### Claim C4: mirrored keys and seal/open round trip -/

/-- Claim C4: after a completed handshake over the same salt, info string and
    session id — responder keys from `encKey, decKey := derive(...)` and
    initiator keys from the reversed `decKey, encKey := derive(...)` — the
    assignments mirror (`initiator.enc = responder.dec` and vice versa), and
    sealing any message on one side then opening on the other returns exactly
    the marshalled envelope bytes. -/
theorem C4_handshake_roundtrip (k1 k2 : Key) (sid : SessionID)
    (priorR priorI : AES256) (hsid : IsZero sid = false)
    (hpI : priorI.sessionID = sid) {M : Type} (marshal : M → List Nat) (m : M)
    (nonce : List Nat) (hn : nonce ≠ []) (sA rA : String) (tE : Nat) :
    (responderEncryptorAfterInit priorR k1 k2 sid).encryptor = some k1
    ∧ (responderEncryptorAfterInit priorR k1 k2 sid).decryptor = some k2
    ∧ (initiatorEncryptorAfterResponse priorI k1 k2).encryptor = some k2
    ∧ (initiatorEncryptorAfterResponse priorI k1 k2).decryptor = some k1
    ∧ Except.bind
        ((initiatorEncryptorAfterResponse priorI k1 k2).Encrypt marshal sA rA m
          (some nonce) tE)
        (responderEncryptorAfterInit priorR k1 k2 sid).Decrypt
      = .ok (marshal m)
    ∧ Except.bind
        ((responderEncryptorAfterInit priorR k1 k2 sid).Encrypt marshal sA rA m
          (some nonce) tE)
        (initiatorEncryptorAfterResponse priorI k1 k2).Decrypt
      = .ok (marshal m) := by
  obtain ⟨eR, dR, sR⟩ := priorR
  obtain ⟨eI, dI, sI⟩ := priorI
  simp only [AES256.mk.injEq] at hpI
  subst hpI
  have hne : nonce.isEmpty = false := by
    cases nonce with
    | nil => exact absurd rfl hn
    | cons hd tl => rfl
  refine ⟨rfl, rfl, rfl, rfl, ?_, ?_⟩
  · simp [responderEncryptorAfterInit, initiatorEncryptorAfterResponse,
      AES256.SetKeys, AES256.SetSessionID, AES256.Encrypt, AES256.Decrypt,
      AES256.Ready, hsid, hne, gcmOpen, gcmSeal, Except.bind]
  · simp [responderEncryptorAfterInit, initiatorEncryptorAfterResponse,
      AES256.SetKeys, AES256.SetSessionID, AES256.Encrypt, AES256.Decrypt,
      AES256.Ready, hsid, hne, gcmOpen, gcmSeal, Except.bind]

/-- Witness for `C4_handshake_roundtrip` with concrete keys, session id,
    nonce and message. -/
theorem C4_handshake_roundtrip_witness :
    (responderEncryptorAfterInit ⟨none, none, zeroSessionID⟩ 3 4 c4Sid).encryptor
      = some 3
    ∧ (responderEncryptorAfterInit ⟨none, none, zeroSessionID⟩ 3 4 c4Sid).decryptor
      = some 4
    ∧ (initiatorEncryptorAfterResponse ⟨none, none, c4Sid⟩ 3 4).encryptor
      = some 4
    ∧ (initiatorEncryptorAfterResponse ⟨none, none, c4Sid⟩ 3 4).decryptor
      = some 3
    ∧ Except.bind
        ((initiatorEncryptorAfterResponse ⟨none, none, c4Sid⟩ 3 4).Encrypt
          (fun n => [n, n]) "a" "b" (5 : Nat) (some [7]) 0)
        (responderEncryptorAfterInit ⟨none, none, zeroSessionID⟩ 3 4 c4Sid).Decrypt
      = .ok [5, 5]
    ∧ Except.bind
        ((responderEncryptorAfterInit ⟨none, none, zeroSessionID⟩ 3 4 c4Sid).Encrypt
          (fun n => [n, n]) "a" "b" (5 : Nat) (some [7]) 0)
        (initiatorEncryptorAfterResponse ⟨none, none, c4Sid⟩ 3 4).Decrypt
      = .ok [5, 5] :=
  C4_handshake_roundtrip 3 4 c4Sid ⟨none, none, zeroSessionID⟩
    ⟨none, none, c4Sid⟩ (by decide) rfl (fun n => [n, n]) 5 [7] (by decide)
    "a" "b" 0

/-! ### Claim C1: chat broadcast fan-out -/

/-- Counterexample to claim C1: in room `"R"` two distinct ids have joined
    (`N = 2`), so the claim predicts exactly `N − 1 = 1` ChatDest envelope
    (only to the non-sender) plus one ChatRoomSuccess envelope to the sender.
    The cited code substitutes the room's allow-list for the empty recipient
    list — which includes the sender — and sends no success envelope at all:
    2 ChatDest envelopes and 0 success envelopes are produced. -/
theorem C1_broadcast_counterexample :
    countSub (eventsOf (ChatSourceProcess c1Payload "a" c1Interceptor 1))
        .chatDest = 2
    ∧ countSub (eventsOf (ChatSourceProcess c1Payload "a" c1Interceptor 1))
        .success = 0
    ∧ ¬(countSub (eventsOf (ChatSourceProcess c1Payload "a" c1Interceptor 1))
          .chatDest = 1
        ∧ countSub (eventsOf (ChatSourceProcess c1Payload "a" c1Interceptor 1))
            .success = 1) := by
  decide

/-- Helper for C1: when every id of `l` has a matching participant, the
    per-id fan-out produces one event per id, every event carries the given
    payload, and no error is collected. -/
lemma send_events_forall_found (r' : Room) (fromID : String)
    (payload : RoomPayload) (l : List String)
    (h : ∀ a ∈ l, (r'.participants.find? (fun q => q.2.id == a)).isSome = true) :
    (l.filterMap (fun id =>
        match r'.sendTo id (CreateMessage fromID id payload) with
        | .ok e => some e
        | .error _ => none)).length = l.length
    ∧ (∀ e ∈ l.filterMap (fun id =>
        match r'.sendTo id (CreateMessage fromID id payload) with
        | .ok e => some e
        | .error _ => none), e.2.payload = payload)
    ∧ (l.filterMap (fun id =>
        match r'.sendTo id (CreateMessage fromID id payload) with
        | .ok _ => none
        | .error e => some e)) = [] := by
  induction l with
  | nil => exact ⟨rfl, fun e he => absurd he (List.not_mem_nil e), rfl⟩
  | cons hd tl ih =>
    have hhd := h hd (List.mem_cons_self hd tl)
    obtain ⟨q, hq⟩ := Option.isSome_iff_exists.mp hhd
    have htl := ih (fun a ha => h a (List.mem_cons_of_mem hd ha))
    have hsend : r'.sendTo hd (CreateMessage fromID hd payload)
        = .ok (q.1, CreateMessage fromID hd payload) := by
      unfold Room.sendTo
      rw [hq]
    refine ⟨?_, ?_, ?_⟩
    · simp [List.filterMap_cons, hsend, htl.1]
    · intro e he
      simp only [List.filterMap_cons, hsend] at he
      rcases List.mem_cons.mp he with he | he
      · rw [he]; rfl
      · exact htl.2.1 e he
    · simp [List.filterMap_cons, hsend, htl.2.2]

/-- Helper for C1: `room.send` with an empty recipient list fans out exactly
    once per allow-list id when each of them has a participant, always
    carrying the given payload, with no collected error. -/
lemma room_send_broadcast (r' : Room) (fromID : String) (payload : RoomPayload)
    (h : ∀ a ∈ r'.allowed,
      (r'.participants.find? (fun q => q.2.id == a)).isSome = true) :
    ((r'.send fromID payload []).1.length = r'.allowed.length)
    ∧ (∀ e ∈ (r'.send fromID payload []).1, e.2.payload = payload)
    ∧ (r'.send fromID payload []).2 = [] := by
  have hbase := send_events_forall_found r' fromID payload r'.allowed h
  simpa [Room.send] using hbase

/-- Claim C1 (amended): processing a broadcast `ChatSource` (empty
    `recipientIds`) in an existing room sends exactly one ChatDest envelope
    per id in the room's allow-list — the sender included when its id is
    allowed — each carrying the ChatSource's roomId, messageId, content and
    timestamp; no ChatRoomSuccess envelope is sent to anyone.  (Stated under
    the hypothesis that every allowed id has a joined participant, the
    claim's "N distinct ids have joined" scenario.) -/
theorem C1_broadcast_amended (i : RoomInterceptor) (conn : Conn)
    (p : ChatSourceP) (senderID : String) (r : Room) (cs : Conn × RState)
    (hr : i.rooms.find? (fun x => x.1 == p.roomID) = some (p.roomID, r))
    (hs : i.states.find? (fun s => s.1 == conn) = some cs)
    (hval : p.validate = true)
    (hbroadcast : p.recipientID = [])
    (hall : ∀ a ∈ r.allowed,
      ((r.setParticipantId conn senderID).participants.find?
        (fun q => q.2.id == a)).isSome = true) :
    (ChatSourceProcess p senderID i conn).isOk = true
    ∧ (eventsOf (ChatSourceProcess p senderID i conn)).length
        = r.allowed.length
    ∧ (∀ e ∈ eventsOf (ChatSourceProcess p senderID i conn),
        e.2.payload = .chatDest p.roomID p.messageID p.content p.timestamp)
    ∧ countSub (eventsOf (ChatSourceProcess p senderID i conn)) .success = 0
    ∧ errsOf (ChatSourceProcess p senderID i conn) = [] := by
  have hproc : ChatSourceProcess p senderID i conn
      = .ok (i.setStateId conn senderID,
          ((r.setParticipantId conn senderID).send senderID
            (.chatDest p.roomID p.messageID p.content p.timestamp) []).1,
          ((r.setParticipantId conn senderID).send senderID
            (.chatDest p.roomID p.messageID p.content p.timestamp) []).2) := by
    unfold ChatSourceProcess
    rw [if_neg (by simp [hval]), hr, hs, hbroadcast]
  have hb := room_send_broadcast (r.setParticipantId conn senderID) senderID
    (.chatDest p.roomID p.messageID p.content p.timestamp) hall
  refine ⟨?_, ?_, ?_, ?_, ?_⟩
  · rw [hproc]; rfl
  · rw [hproc]; exact hb.1
  · rw [hproc]; exact hb.2.1
  · have hfilter : (((r.setParticipantId conn senderID).send senderID
        (.chatDest p.roomID p.messageID p.content p.timestamp) []).1).filter
        (fun e => e.2.payload.typeOf == RoomSubType.success) = [] := by
      rw [List.filter_eq_nil_iff]
      intro e he
      have hp := hb.2.1 e he
      simp [hp, RoomPayload.typeOf]
    rw [hproc]
    unfold countSub
    show ((((r.setParticipantId conn senderID).send senderID
        (.chatDest p.roomID p.messageID p.content p.timestamp) []).1).filter
        (fun e => e.2.payload.typeOf == RoomSubType.success)).length = 0
    rw [hfilter]
    rfl
  · rw [hproc]; exact hb.2.2

/-- Witness for `C1_broadcast_amended` at the two-member room. -/
theorem C1_broadcast_amended_witness :
    (ChatSourceProcess c1Payload "a" c1Interceptor 1).isOk = true
    ∧ (eventsOf (ChatSourceProcess c1Payload "a" c1Interceptor 1)).length
        = c1Room.allowed.length
    ∧ (∀ e ∈ eventsOf (ChatSourceProcess c1Payload "a" c1Interceptor 1),
        e.2.payload = .chatDest c1Payload.roomID c1Payload.messageID
          c1Payload.content c1Payload.timestamp)
    ∧ countSub (eventsOf (ChatSourceProcess c1Payload "a" c1Interceptor 1))
        .success = 0
    ∧ errsOf (ChatSourceProcess c1Payload "a" c1Interceptor 1) = [] :=
  C1_broadcast_amended c1Interceptor 1 c1Payload "a" c1Room (1, ⟨"a"⟩)
    rfl rfl rfl rfl (by decide)

end Serve
